import Mathlib

/-!
Verification development for the kds-public killmail statistics tool.

The TypeScript sources are shallowly embedded as executable Lean
definitions: `stats.ts` (kill and loss aggregation), `api.ts`
(zKillboard fetch client with the per-partition killmail cache and
pagination), and `esi.ts` (batched character-name resolution).

JavaScript truthiness is made explicit (`0`, `""`, `undefined` are
falsy), optional fields become `Option`, JS `Map`s and plain-object
records become insertion-ordered association lists, and asynchronous
HTTP endpoints become oracle functions passed as parameters.
-/

/-- JS truthiness for an optional number: `undefined` and `0` are falsy. -/
def truthyNat : Option Nat → Bool
  | none => false
  | some n => n != 0

/-- JS truthiness for an optional string: `undefined` and `""` are falsy. -/
def truthyStr : Option String → Bool
  | none => false
  | some s => s != ""

/-- Lookup in an insertion-ordered association list (JS `Map.get` /
record property read). -/
def alLookup {κ α : Type} [DecidableEq κ] : List (κ × α) → κ → Option α
  | [], _ => none
  | (k2, v) :: rest, k => if k2 = k then some v else alLookup rest k

/-- Insert-or-replace in an insertion-ordered association list
(JS `Map.set` / record property assignment: existing keys keep their
position, new keys are appended). -/
def alInsert {κ α : Type} [DecidableEq κ] : List (κ × α) → κ → α → List (κ × α)
  | [], k, v => [(k, v)]
  | (k2, v2) :: rest, k, v =>
    if k2 = k then (k2, v) :: rest else (k2, v2) :: alInsert rest k v

/-! ## Data model (`types.ts`) -/

/-- `Victim` from `types.ts`: all identity fields are optional. -/
structure Victim where
  characterID : Option Nat
  characterName : Option String
  corporationID : Option Nat
  corporationName : Option String
  allianceID : Option Nat
  allianceName : Option String
  shipTypeID : Option Nat
  shipTypeName : Option String
  damageTaken : Option Nat
deriving DecidableEq, Repr

/-- `Attacker` from `types.ts`. -/
structure Attacker where
  characterID : Option Nat
  characterName : Option String
  corporationID : Option Nat
  corporationName : Option String
  allianceID : Option Nat
  allianceName : Option String
  shipTypeID : Option Nat
  shipTypeName : Option String
  weaponTypeID : Option Nat
  damageDone : Option Nat
  finalBlow : Bool
  securityStatus : Option Int
deriving DecidableEq, Repr

/-- `ZkbInfo` from `types.ts`. -/
structure ZkbInfo where
  locationID : Option Nat
  hash : Option String
  fittedValue : Option Nat
  droppedValue : Option Nat
  destroyedValue : Option Nat
  totalValue : Option Nat
  points : Option Nat
  solo : Option Bool
  awox : Option Bool
deriving DecidableEq, Repr

/-- `Killmail` from `types.ts`.  `victim`, `attackers` and `zkb` are kept
optional because `stats.ts` defensively guards against their absence
(`killmail.victim?.`, `!killmail.attackers || !Array.isArray(...)`,
`killmail.zkb?.`). -/
structure Killmail where
  killID : Nat
  killTime : String
  solarSystemID : Nat
  victim : Option Victim
  attackers : Option (List Attacker)
  zkb : Option ZkbInfo
deriving DecidableEq, Repr

/-! ## Statistics aggregation (`stats.ts`) -/

/-- `CAPSULE_SHIP_ID` in `stats.ts`. -/
def CAPSULE_SHIP_ID : Nat := 670

/-- `CAPSULE_SHIP_NAME` in `stats.ts` (the escape-pod display name). -/
def CAPSULE_SHIP_NAME : String := "太空舱"

/-- `ParticipantStats` from `types.ts` (kill side). -/
structure ParticipantStats where
  characterID : Nat
  characterName : String
  corporationID : Nat
  corporationName : String
  totalKills : Nat
  shipTypes : List (String × Nat)
  shipSignature : Nat
  finalBlows : Nat
deriving DecidableEq, Repr

/-- `ShipTypeStats` from `types.ts` (kill side). -/
structure ShipTypeStats where
  shipTypeID : Nat
  shipTypeName : String
  totalKills : Nat
  participants : List (Nat × Nat)
deriving DecidableEq, Repr

/-- `CorporationStats` state owned by `KillmailStats` (the `lastUpdated`
timestamp is dropped; the `rawTotalKills` field declared in `types.ts`
is never initialised or touched by `stats.ts`, so it is omitted). -/
structure CorporationStats where
  corporationID : Nat
  corporationName : String
  totalKills : Nat
  participants : List (Nat × ParticipantStats)
  shipTypes : List (Nat × ShipTypeStats)
deriving DecidableEq, Repr

/-- Display-name resolution shared by `KillmailStats.processKillmail`
(stats.ts lines 71-76) and `LossStatistics.processKillmail` (lines
284-289): the pre-loaded name map wins when its entry is truthy,
otherwise a truthy raw embedded name yields `"<raw> (<id>)"`, otherwise
`"Character_<id>"`. -/
def resolveDisplayName (names : List (Nat × String)) (characterID : Nat)
    (rawName : Option String) : String :=
  let fromMap := alLookup names characterID
  if truthyStr fromMap then fromMap.getD ""
  else if truthyStr rawName then rawName.getD "" ++ " (" ++ toString characterID ++ ")"
  else "Character_" ++ toString characterID

namespace KillmailStats

/-- The `KillmailStats` constructor:
`corporationName: corporationName || Corp <id>`. -/
def init (corporationID : Nat) (corporationName : Option String) : CorporationStats :=
  { corporationID := corporationID
    corporationName :=
      if truthyStr corporationName then corporationName.getD ""
      else "Corp " ++ toString corporationID
    totalKills := 0
    participants := []
    shipTypes := [] }

/-- The ship display name computed inside the attacker loop:
`attacker.shipTypeName || Ship <shipTypeID>`. -/
def attackerShipName (a : Attacker) : String :=
  if truthyStr a.shipTypeName then a.shipTypeName.getD ""
  else "Ship " ++ toString (a.shipTypeID.getD 0)

/-- One iteration of the attacker loop of
`KillmailStats.processKillmail` (stats.ts lines 61-143). -/
def processAttacker (corpID : Nat) (names : List (Nat × String))
    (s : CorporationStats) (a : Attacker) : CorporationStats :=
  if a.corporationID ≠ some corpID then s
  else if ¬ truthyNat a.characterID then s
  else
    let cid := a.characterID.getD 0
    let cname := resolveDisplayName names cid a.characterName
    let p0 :=
      match alLookup s.participants cid with
      | some p => p
      | none =>
        { characterID := cid
          characterName := cname
          corporationID := a.corporationID.getD 0
          corporationName := a.corporationName.getD ""
          totalKills := 0
          shipTypes := []
          shipSignature := 0
          finalBlows := 0 }
    let p1 := if p0.characterName ≠ cname ∧ cname ≠ "" then
        { p0 with characterName := cname } else p0
    if truthyNat a.shipTypeID then
      let tid := a.shipTypeID.getD 0
      let sname := attackerShipName a
      if sname = CAPSULE_SHIP_NAME then
        -- `continue`: the capsule pilot keeps the created/renamed entry but
        -- every counter update, the finalBlow one included, is skipped.
        { s with participants := alInsert s.participants cid p1 }
      else
        let prevCount := (alLookup p1.shipTypes sname).getD 0
        let p2 := { p1 with
          totalKills := p1.totalKills + 1
          shipTypes := alInsert p1.shipTypes sname (prevCount + 1)
          shipSignature :=
            if prevCount = 0 then p1.shipSignature + 1 else p1.shipSignature }
        let st0 :=
          match alLookup s.shipTypes tid with
          | some st => st
          | none =>
            { shipTypeID := tid
              shipTypeName := sname
              totalKills := 0
              participants := [] }
        let st1 := { st0 with
          totalKills := st0.totalKills + 1
          participants :=
            alInsert st0.participants cid ((alLookup st0.participants cid).getD 0 + 1) }
        let p3 := if a.finalBlow then { p2 with finalBlows := p2.finalBlows + 1 } else p2
        { s with
          participants := alInsert s.participants cid p3
          shipTypes := alInsert s.shipTypes tid st1 }
    else
      let p3 := if a.finalBlow then { p1 with finalBlows := p1.finalBlows + 1 } else p1
      { s with participants := alInsert s.participants cid p3 }

/-- `KillmailStats.processKillmail` (stats.ts lines 47-144). -/
def processKillmail (corpID : Nat) (names : List (Nat × String))
    (s : CorporationStats) (killmail : Killmail) : CorporationStats :=
  if killmail.victim.bind Victim.shipTypeID = some CAPSULE_SHIP_ID then s
  else
    let s := { s with totalKills := s.totalKills + 1 }
    match killmail.attackers with
    | none => s
    | some attackers => attackers.foldl (processAttacker corpID names) s

/-- `KillmailStats.processKillmails`. -/
def processKillmails (corpID : Nat) (names : List (Nat × String))
    (s : CorporationStats) (killmails : List Killmail) : CorporationStats :=
  killmails.foldl (processKillmail corpID names) s

end KillmailStats

/-- `LossParticipantStats` from `types.ts`. -/
structure LossParticipantStats where
  characterID : Nat
  characterName : String
  corporationID : Nat
  corporationName : String
  totalLosses : Nat
  shipTypes : List (String × Nat)
  totalValue : Nat
  damageTaken : Nat
deriving DecidableEq, Repr

/-- `LossShipTypeStats` from `types.ts`. -/
structure LossShipTypeStats where
  shipTypeID : Nat
  shipTypeName : String
  totalLosses : Nat
  totalValue : Nat
  participants : List (Nat × Nat)
deriving DecidableEq, Repr

/-- `LossStatisticsData` state owned by `LossStatistics`
(`lastUpdated` timestamp dropped). -/
structure LossStatisticsData where
  corporationID : Nat
  corporationName : String
  totalLosses : Nat
  participants : List (Nat × LossParticipantStats)
  shipTypes : List (Nat × LossShipTypeStats)
deriving DecidableEq, Repr

namespace LossStatistics

/-- The `LossStatistics` constructor. -/
def init (corporationID : Nat) (corporationName : Option String) : LossStatisticsData :=
  { corporationID := corporationID
    corporationName :=
      if truthyStr corporationName then corporationName.getD ""
      else "Corp " ++ toString corporationID
    totalLosses := 0
    participants := []
    shipTypes := [] }

/-- The victim ship display name: `victim.shipTypeName || Ship <id>`. -/
def victimShipName (v : Victim) : String :=
  if truthyStr v.shipTypeName then v.shipTypeName.getD ""
  else "Ship " ++ toString (v.shipTypeID.getD 0)

/-- `LossStatistics.processKillmail` (stats.ts lines 263-354). -/
def processKillmail (corpID : Nat) (names : List (Nat × String))
    (s : LossStatisticsData) (killmail : Killmail) : LossStatisticsData :=
  match killmail.victim with
  | none => s
  | some victim =>
    if victim.corporationID ≠ some corpID then s
    else if ¬ truthyNat victim.characterID then s
    else if victim.shipTypeID = some CAPSULE_SHIP_ID then s
    else
      let s := { s with totalLosses := s.totalLosses + 1 }
      let cid := victim.characterID.getD 0
      let cname := resolveDisplayName names cid victim.characterName
      let p0 :=
        match alLookup s.participants cid with
        | some p => p
        | none =>
          { characterID := cid
            characterName := cname
            corporationID := victim.corporationID.getD 0
            corporationName := victim.corporationName.getD ""
            totalLosses := 0
            shipTypes := []
            totalValue := 0
            damageTaken := 0 }
      let p1 := if p0.characterName ≠ cname ∧ cname ≠ "" then
          { p0 with characterName := cname } else p0
      if truthyNat victim.shipTypeID then
        let tid := victim.shipTypeID.getD 0
        let sname := victimShipName victim
        if sname = CAPSULE_SHIP_NAME then
          -- `return`: the created/renamed entry persists, but no counter,
          -- value or damage accumulation happens.
          { s with participants := alInsert s.participants cid p1 }
        else
          let prevCount := (alLookup p1.shipTypes sname).getD 0
          let p2 := { p1 with
            totalLosses := p1.totalLosses + 1
            shipTypes := alInsert p1.shipTypes sname (prevCount + 1) }
          let st0 :=
            match alLookup s.shipTypes tid with
            | some st => st
            | none =>
              { shipTypeID := tid
                shipTypeName := sname
                totalLosses := 0
                totalValue := 0
                participants := [] }
          let value := (killmail.zkb.bind ZkbInfo.totalValue).getD 0
          let st1 := { st0 with
            totalLosses := st0.totalLosses + 1
            totalValue := st0.totalValue + value
            participants :=
              alInsert st0.participants cid ((alLookup st0.participants cid).getD 0 + 1) }
          let p3 := { p2 with totalValue := p2.totalValue + value }
          let p4 := if truthyNat victim.damageTaken then
              { p3 with damageTaken := p3.damageTaken + victim.damageTaken.getD 0 }
            else p3
          { s with
            participants := alInsert s.participants cid p4
            shipTypes := alInsert s.shipTypes tid st1 }
      else
        let p4 := if truthyNat victim.damageTaken then
            { p1 with damageTaken := p1.damageTaken + victim.damageTaken.getD 0 }
          else p1
        { s with participants := alInsert s.participants cid p4 }

/-- `LossStatistics.processKillmails`. -/
def processKillmails (corpID : Nat) (names : List (Nat × String))
    (s : LossStatisticsData) (killmails : List Killmail) : LossStatisticsData :=
  killmails.foldl (processKillmail corpID names) s

end LossStatistics

/-! ## Fetch client (`api.ts`, `src/unnamed/part_001`) -/

/-- ESI victim payload from `types.ts` (`ESIKillmailResponse.victim`). -/
structure ESIVictim where
  character_id : Option Nat
  corporation_id : Option Nat
  alliance_id : Option Nat
  faction_id : Option Nat
  ship_type_id : Option Nat
  damage_taken : Option Nat
deriving DecidableEq, Repr

/-- ESI attacker payload from `types.ts`. -/
structure ESIAttacker where
  character_id : Option Nat
  corporation_id : Option Nat
  alliance_id : Option Nat
  faction_id : Option Nat
  ship_type_id : Option Nat
  weapon_type_id : Option Nat
  damage_done : Option Nat
  final_blow : Option Bool
  security_status : Option Int
deriving DecidableEq, Repr

/-- `ESIKillmailResponse` from `types.ts`. -/
structure ESIKillmailResponse where
  killmail_id : Nat
  killmail_time : String
  solar_system_id : Nat
  victim : Option ESIVictim
  attackers : Option (List ESIAttacker)
deriving DecidableEq, Repr

/-- `ZKillboardListItem` from `types.ts`, reduced to the two fields the
fetch client reads (`killmail_id` and `zkb.hash`). -/
structure ZKillboardListItem where
  killmail_id : Nat
  hash : String
deriving DecidableEq, Repr

namespace ZKillboardAPI

/-- `getShipTypeName` (api.ts lines 309-312).  The static `SHIP_NAMES`
table lives in a module outside `src/`, so it is passed as the injected
`TypeID -> Name` function the spec prescribes for it. -/
def getShipTypeName (shipNames : Nat → Option String) (typeID : Option Nat) :
    Option String :=
  if ¬ truthyNat typeID then none
  else
    let t := typeID.getD 0
    if truthyStr (shipNames t) then some ((shipNames t).getD "")
    else some ("ShipType_" ++ toString t)

/-- Rendering of an optional number inside a JS template string
("undefined" when the value is absent). -/
def jsShow (o : Option Nat) : String :=
  match o with
  | some n => toString n
  | none => "undefined"

/-- `transformESIResponse` (api.ts lines 267-304).  Note that both
`zkb.destroyedValue` and `zkb.totalValue` are set to
`esiData.victim?.damage_taken || 0`. -/
def transformESIResponse (shipNames : Nat → Option String) (killmailID : Nat)
    (hash : String) (esiData : ESIKillmailResponse) : Killmail :=
  { killID := killmailID
    killTime := esiData.killmail_time
    solarSystemID := esiData.solar_system_id
    victim := some
      { characterID := esiData.victim.bind ESIVictim.character_id
        characterName := none
        corporationID := esiData.victim.bind ESIVictim.corporation_id
        corporationName := none
        allianceID := esiData.victim.bind ESIVictim.alliance_id
        allianceName := some ("Alliance_" ++ jsShow (esiData.victim.bind ESIVictim.alliance_id))
        shipTypeID := esiData.victim.bind ESIVictim.ship_type_id
        shipTypeName := getShipTypeName shipNames (esiData.victim.bind ESIVictim.ship_type_id)
        damageTaken := esiData.victim.bind ESIVictim.damage_taken }
    attackers := some ((esiData.attackers.getD []).enum.map fun iatt =>
      { characterID := iatt.2.character_id
        characterName := none
        corporationID := iatt.2.corporation_id
        corporationName := none
        allianceID := iatt.2.alliance_id
        allianceName :=
          if truthyNat iatt.2.alliance_id then some ("Alliance_" ++ jsShow iatt.2.alliance_id)
          else some "Unknown"
        shipTypeID := iatt.2.ship_type_id
        shipTypeName := getShipTypeName shipNames iatt.2.ship_type_id
        weaponTypeID := iatt.2.weapon_type_id
        damageDone := iatt.2.damage_done
        finalBlow := iatt.2.final_blow.getD false || iatt.1 == 0
        securityStatus := iatt.2.security_status })
    zkb := some
      { locationID := some 0
        hash := some hash
        fittedValue := some 0
        droppedValue := none
        destroyedValue := some ((esiData.victim.bind ESIVictim.damage_taken).getD 0)
        totalValue := some ((esiData.victim.bind ESIVictim.damage_taken).getD 0)
        points := some 0
        solo := some false
        awox := some false } }

/-- `getESIKillmailDetail` (api.ts lines 253-262): the ESI response (or
transport failure) is the `Except` argument; a failure is caught and
turned into `none` rather than propagated. -/
def getESIKillmailDetail (shipNames : Nat → Option String) (killmailID : Nat)
    (hash : String) (resp : Except String ESIKillmailResponse) : Option Killmail :=
  match resp with
  | .ok esiData => some (transformESIResponse shipNames killmailID hash esiData)
  | .error _ => none

/-- The miss-draining loop of `getKills` (api.ts lines 146-157): fetch
each missing killmail in order, storing only the successful ones. -/
def fetchMissing (shipNames : Nat → Option String)
    (esiResp : Nat → String → Except String ESIKillmailResponse) :
    List (Nat × String) → List (Nat × Killmail) → List (Nat × Killmail)
  | [], cache => cache
  | (id, hash) :: rest, cache =>
    let cache2 :=
      match getESIKillmailDetail shipNames id hash (esiResp id hash) with
      | some killmail => alInsert cache id killmail
      | none => cache
    fetchMissing shipNames esiResp rest cache2

/-- Result of one `getKills` call, with the sequence of detail-endpoint
requests it issued recorded for the resource claims. -/
structure GetKillsResult where
  kills : List Killmail
  rawCount : Nat
  cache : List (Nat × Killmail)
  detailRequests : List (Nat × String)
deriving Repr

/-- `getKills` (api.ts lines 99-169) for one fixed cache partition.
`data` is the list-endpoint page for that partition, `cache0` the
persisted partition content read back from disk, `esiResp` the detail
endpoint.  Summaries already cached are not re-fetched; the misses are
drained in page order, the merged partition is persisted (returned as
`cache`), and the valid kills are the page summaries reconciled against
the merged partition, in page order. -/
def getKills (shipNames : Nat → Option String)
    (esiResp : Nat → String → Except String ESIKillmailResponse)
    (data : List ZKillboardListItem) (cache0 : List (Nat × Killmail)) :
    GetKillsResult :=
  let needFetch := (data.filter fun item => (alLookup cache0 item.killmail_id).isNone).map
    fun item => (item.killmail_id, item.hash)
  let cache1 := fetchMissing shipNames esiResp needFetch cache0
  { kills := data.filterMap fun item => alLookup cache1 item.killmail_id
    rawCount := data.length
    cache := cache1
    detailRequests := needFetch }

/-- Result of a `getAllKills` run: the concatenated kill stream, the
pages requested from the list endpoint in order, and the final cache
partition. -/
structure GetAllKillsResult where
  kills : List Killmail
  listRequests : List Nat
  cache : List (Nat × Killmail)
deriving Repr

/-- The `while (hasMore)` pagination loop of `getAllKills` (api.ts lines
318-349), made total with a fuel bound on the number of pages visited.
`pageData` is the list endpoint (page number to page content). -/
def getAllKillsAux (shipNames : Nat → Option String)
    (esiResp : Nat → String → Except String ESIKillmailResponse)
    (pageData : Nat → List ZKillboardListItem) :
    Nat → Nat → List (Nat × Killmail) → GetAllKillsResult
  | 0, _, cache => { kills := [], listRequests := [], cache := cache }
  | fuel + 1, page, cache =>
    let result := getKills shipNames esiResp (pageData page) cache
    if result.rawCount = 0 then
      { kills := [], listRequests := [page], cache := result.cache }
    else
      let rest := getAllKillsAux shipNames esiResp pageData fuel (page + 1) result.cache
      { kills := result.kills ++ rest.kills
        listRequests := page :: rest.listRequests
        cache := rest.cache }

/-- `getAllKills`: start at page 1 with the partition cache as read from
disk. -/
def getAllKills (shipNames : Nat → Option String)
    (esiResp : Nat → String → Except String ESIKillmailResponse)
    (pageData : Nat → List ZKillboardListItem) (fuel : Nat)
    (cache0 : List (Nat × Killmail)) : GetAllKillsResult :=
  getAllKillsAux shipNames esiResp pageData fuel 1 cache0

end ZKillboardAPI

/-! ## Name resolution client (`esi.ts`) -/

namespace ESI

/-- The batching loop of `getCharacterNames` (esi.ts lines 106-111):
`for (let i = 0; i < uncachedIds.length; i += 1000) slice(i, i + 1000)`,
i.e. consecutive chunks of at most 1000 IDs. -/
def chunk1000 (l : List Nat) : List (List Nat) :=
  if _h : l = [] then []
  else l.take 1000 :: chunk1000 (l.drop 1000)
termination_by l.length
decreasing_by
  simp only [List.length_drop]
  have : 0 < l.length := List.length_pos.mpr _h
  omega

/-- The cache scan of `getCharacterNames` (esi.ts lines 91-100): an ID is
uncached when the memory cache has no entry for it (`Map.has`) and the
file cache holds no truthy entry for it. -/
def uncachedIdsOf (memoryCache fileCache : List (Nat × String))
    (characterIds : List Nat) : List Nat :=
  characterIds.filter fun id =>
    (alLookup memoryCache id).isNone && ! truthyStr (alLookup fileCache id)

/-- Result of one `getCharacterNames` call, with the batch requests it
issued to `POST /universe/names/` recorded. -/
structure GetCharacterNamesResult where
  names : List (Nat × String)
  batchRequests : List (List Nat)
deriving Repr

/-- `getCharacterNames` (esi.ts lines 83-118).  `batchResp` is the
name-batch endpoint after `fetchNamesByIds` post-processing (category
filter and error absorption).  Cache hits are collected first, then the
uncached remainder is resolved in batches of at most 1000. -/
def getCharacterNames (memoryCache fileCache : List (Nat × String))
    (characterIds : List Nat) (batchResp : List Nat → List (Nat × String)) :
    GetCharacterNamesResult :=
  if characterIds = [] then { names := [], batchRequests := [] }
  else
    let cachedNames := characterIds.foldl (fun acc id =>
      match alLookup memoryCache id with
      | some n => alInsert acc id n
      | none =>
        match alLookup fileCache id with
        | some n => if n ≠ "" then alInsert acc id n else acc
        | none => acc) []
    let uncachedIds := uncachedIdsOf memoryCache fileCache characterIds
    let batches := chunk1000 uncachedIds
    let names := batches.foldl (fun acc b =>
      (batchResp b).foldl (fun acc2 p => alInsert acc2 p.1 p.2) acc) cachedNames
    { names := names, batchRequests := batches }

end ESI

/-! ## Predicates used by the claims -/

/-- Records excluded from kill aggregation: the victim ship-type is the
escape pod (`stats.ts` line 49). -/
def excludedKill (km : Killmail) : Bool :=
  km.victim.bind Victim.shipTypeID == some CAPSULE_SHIP_ID

/-- Pointwise counter ordering between two kill-statistics states: the
total is not smaller, every participant entry persists with
kill/signature/finishing-blow counters not smaller, and every ship-type
entry persists with its kill counter not smaller. -/
def StatsLE (s t : CorporationStats) : Prop :=
  s.totalKills ≤ t.totalKills ∧
  (∀ cid p, alLookup s.participants cid = some p →
    ∃ q, alLookup t.participants cid = some q ∧
      p.totalKills ≤ q.totalKills ∧ p.shipSignature ≤ q.shipSignature ∧
      p.finalBlows ≤ q.finalBlows) ∧
  (∀ tid st, alLookup s.shipTypes tid = some st →
    ∃ su, alLookup t.shipTypes tid = some su ∧ st.totalKills ≤ su.totalKills)

/-- Every participant entry of a loss-statistics state has accumulated
destroyed value equal to accumulated damage taken. -/
def BalancedLoss (t : LossStatisticsData) : Prop :=
  ∀ cid p, alLookup t.participants cid = some p → p.totalValue = p.damageTaken

/-- A record produced by `transformESIResponse` whose ESI victim carries
a (truthy) ship-type ID. -/
def TransformedWithShip (shipNames : Nat → Option String) (km : Killmail) : Prop :=
  ∃ id hash esi, km = ZKillboardAPI.transformESIResponse shipNames id hash esi ∧
    truthyNat (esi.victim.bind ESIVictim.ship_type_id) = true

/-- Discriminator for a successful `Except` response. -/
def isOkE {α : Type} (r : Except String α) : Bool :=
  match r with
  | .ok _ => true
  | .error _ => false

/-! ## Concrete inputs for witnesses and counterexamples -/

/-- A frigate victim of corporation 200 (not an escape pod). -/
def frigateVictim : Victim :=
  { characterID := some 9
    characterName := some "Victor"
    corporationID := some 200
    corporationName := some "Targets"
    allianceID := none
    allianceName := none
    shipTypeID := some 587
    shipTypeName := some "Rifter"
    damageTaken := some 1000 }

/-- An escape-pod victim of corporation 100. -/
def podVictim : Victim :=
  { characterID := some 9
    characterName := some "Victor"
    corporationID := some 100
    corporationName := some "AcmeCorp"
    allianceID := none
    allianceName := none
    shipTypeID := some 670
    shipTypeName := some "太空舱"
    damageTaken := some 450 }

/-- An attacker of corporation 100 flying the escape pod who lands the
finishing blow. -/
def podAttacker : Attacker :=
  { characterID := some 1
    characterName := some "Alice"
    corporationID := some 100
    corporationName := some "AcmeCorp"
    allianceID := none
    allianceName := none
    shipTypeID := some 670
    shipTypeName := some "太空舱"
    weaponTypeID := none
    damageDone := some 0
    finalBlow := true
    securityStatus := none }

/-- An attacker of corporation 100 flying a Rifter, raw name embedded. -/
def rifterAttacker : Attacker :=
  { characterID := some 5
    characterName := some "Bob"
    corporationID := some 100
    corporationName := some "AcmeCorp"
    allianceID := none
    allianceName := none
    shipTypeID := some 587
    shipTypeName := some "Rifter"
    weaponTypeID := some 2456
    damageDone := some 300
    finalBlow := false
    securityStatus := some 5 }

/-- Kill record: frigate victim, capsule-flying finishing-blow attacker. -/
def kmPodAttacker : Killmail :=
  { killID := 1
    killTime := "2026-01-05T12:00:00Z"
    solarSystemID := 30000142
    victim := some frigateVictim
    attackers := some [podAttacker]
    zkb := none }

/-- Record whose victim is an escape pod. -/
def kmPodVictim : Killmail :=
  { killID := 2
    killTime := "2026-01-05T13:00:00Z"
    solarSystemID := 30000142
    victim := some podVictim
    attackers := some [rifterAttacker]
    zkb := none }

/-- Kill record with a Rifter-flying attacker of corporation 100. -/
def kmRifter : Killmail :=
  { killID := 3
    killTime := "2026-01-06T09:00:00Z"
    solarSystemID := 30000142
    victim := some frigateVictim
    attackers := some [rifterAttacker]
    zkb := none }

/-- Loss record: victim of corporation 100 with no character ID. -/
def kmNoCharVictim : Killmail :=
  { killID := 4
    killTime := "2026-01-07T10:00:00Z"
    solarSystemID := 30000142
    victim := some
      { characterID := none
        characterName := none
        corporationID := some 100
        corporationName := some "AcmeCorp"
        allianceID := none
        allianceName := none
        shipTypeID := some 587
        shipTypeName := some "Rifter"
        damageTaken := some 800 }
    attackers := some []
    zkb := none }

/-- Empty injected ship-name table. -/
def noShipNames : Nat → Option String := fun _ => none

/-- ESI response whose victim has damage taken but no ship-type ID. -/
def esiNoShip : ESIKillmailResponse :=
  { killmail_id := 11
    killmail_time := "2026-01-08T11:00:00Z"
    solar_system_id := 30000142
    victim := some
      { character_id := some 7
        corporation_id := some 100
        alliance_id := none
        faction_id := none
        ship_type_id := none
        damage_taken := some 100 }
    attackers := some [] }

/-- ESI response whose victim has both a ship-type ID and damage taken. -/
def esiWithShip : ESIKillmailResponse :=
  { killmail_id := 12
    killmail_time := "2026-01-08T11:30:00Z"
    solar_system_id := 30000142
    victim := some
      { character_id := some 7
        corporation_id := some 100
        alliance_id := none
        faction_id := none
        ship_type_id := some 587
        damage_taken := some 100 }
    attackers := some [] }

/-- Concrete list-endpoint summary entries. -/
def itemA : ZKillboardListItem := { killmail_id := 21, hash := "ha" }

/-- Second concrete list-endpoint summary entry. -/
def itemB : ZKillboardListItem := { killmail_id := 22, hash := "hb" }

/-- Detail endpoint that always succeeds. -/
def esiOkResp : Nat → String → Except String ESIKillmailResponse := fun id _ =>
  .ok { killmail_id := id
        killmail_time := "2026-01-09T00:00:00Z"
        solar_system_id := 30000142
        victim := none
        attackers := none }

/-- Detail endpoint that fails for killmail 22 and succeeds otherwise. -/
def esiFailB : Nat → String → Except String ESIKillmailResponse := fun id h =>
  if id = 22 then .error "timeout"
  else esiOkResp id h

/-- List endpoint with one non-empty page 1 and an empty page 2. -/
def pagesOneThenEmpty : Nat → List ZKillboardListItem := fun p =>
  if p = 1 then [itemA] else []

/-! ## Association list lemmas -/

theorem alLookup_alInsert {κ α : Type} [DecidableEq κ] (l : List (κ × α)) (k k2 : κ) (v : α) :
    alLookup (alInsert l k v) k2 = if k = k2 then some v else alLookup l k2 := by
  induction l with
  | nil => simp [alInsert, alLookup]
  | cons hd tl ih =>
    obtain ⟨k3, v3⟩ := hd
    simp only [alInsert, alLookup]
    by_cases h3 : k3 = k
    · subst h3
      by_cases h2 : k3 = k2 <;> simp [alLookup, h2]
    · by_cases h2 : k3 = k2
      · subst h2
        have : ¬ k = k3 := fun h => h3 h.symm
        simp [alLookup, h3, this]
      · simp [alLookup, h3, h2, ih]

theorem alLookup_alInsert_self {κ α : Type} [DecidableEq κ] (l : List (κ × α)) (k : κ) (v : α) :
    alLookup (alInsert l k v) k = some v := by
  simp [alLookup_alInsert]

theorem alLookup_alInsert_ne {κ α : Type} [DecidableEq κ] (l : List (κ × α)) (k k2 : κ) (v : α)
    (h : k ≠ k2) : alLookup (alInsert l k v) k2 = alLookup l k2 := by
  simp [alLookup_alInsert, h]

/-! ## Batch chunking lemmas -/

theorem chunk1000_flatten (l : List Nat) : (ESI.chunk1000 l).flatten = l := by
  rw [ESI.chunk1000]
  split
  · simp_all
  · have ih := chunk1000_flatten (l.drop 1000)
    simp [ih]
termination_by l.length
decreasing_by
  simp only [List.length_drop]
  have : 0 < l.length := List.length_pos.mpr (by assumption)
  omega

theorem chunk1000_le (l : List Nat) (b : List Nat) (hb : b ∈ ESI.chunk1000 l) :
    b.length ≤ 1000 := by
  rw [ESI.chunk1000] at hb
  split at hb
  · simp at hb
  · rcases List.mem_cons.mp hb with h | h
    · subst h
      simp [List.length_take]
    · exact chunk1000_le (l.drop 1000) b h
termination_by l.length
decreasing_by
  simp only [List.length_drop]
  have : 0 < l.length := List.length_pos.mpr (by assumption)
  omega

theorem chunk1000_map_length_2500 (l : List Nat) (h : l.length = 2500) :
    (ESI.chunk1000 l).map List.length = [1000, 1000, 500] := by
  have h0 : l ≠ [] := by
    intro e
    rw [e] at h
    simp at h
  have hd1 : (l.drop 1000).length = 1500 := by simp [h]
  have h1 : l.drop 1000 ≠ [] := by
    intro e
    rw [e] at hd1
    simp at hd1
  have hd2 : ((l.drop 1000).drop 1000).length = 500 := by
    simp only [List.length_drop]
    omega
  have h2 : (l.drop 1000).drop 1000 ≠ [] := by
    intro e
    rw [e] at hd2
    simp at hd2
  have hd3 : (((l.drop 1000).drop 1000).drop 1000).length = 0 := by
    simp only [List.length_drop]
    omega
  have h3 : ((l.drop 1000).drop 1000).drop 1000 = [] := List.eq_nil_of_length_eq_zero hd3
  rw [ESI.chunk1000, dif_neg h0, ESI.chunk1000, dif_neg h1, ESI.chunk1000, dif_neg h2,
    ESI.chunk1000, dif_pos h3]
  simp [List.length_take, h, hd1, hd2]

/-! ## Counting helper -/

theorem countP_not_eq {α : Type} (p : α → Bool) (l : List α) :
    l.countP (fun x => ! p x) = l.length - l.countP p := by
  induction l with
  | nil => simp
  | cons hd tl ih =>
    have hle := List.countP_le_length (p := p) (l := tl)
    simp only [List.countP_cons, List.length_cons, ih]
    cases hp : p hd <;> (simp; try omega)

/-! ## Claim C8 -/

/-- C8: `getCharacterNames` partitions the uncached IDs into consecutive
groups of at most 1000 and issues exactly one batch request per group;
2500 uncached IDs give exactly 3 batches of sizes 1000, 1000, 500, and
no batch ever exceeds 1000 IDs. -/
theorem getCharacterNames_batching (memoryCache fileCache : List (Nat × String))
    (characterIds : List Nat) (batchResp : List Nat → List (Nat × String)) :
    (ESI.getCharacterNames memoryCache fileCache characterIds batchResp).batchRequests
        = ESI.chunk1000 (ESI.uncachedIdsOf memoryCache fileCache characterIds) ∧
    (∀ b ∈ (ESI.getCharacterNames memoryCache fileCache characterIds batchResp).batchRequests,
        b.length ≤ 1000) ∧
    (ESI.getCharacterNames memoryCache fileCache characterIds batchResp).batchRequests.flatten
        = ESI.uncachedIdsOf memoryCache fileCache characterIds ∧
    ((ESI.uncachedIdsOf memoryCache fileCache characterIds).length = 2500 →
      (ESI.getCharacterNames memoryCache fileCache characterIds batchResp).batchRequests.map
          List.length = [1000, 1000, 500]) := by
  have hreq : (ESI.getCharacterNames memoryCache fileCache characterIds batchResp).batchRequests
      = ESI.chunk1000 (ESI.uncachedIdsOf memoryCache fileCache characterIds) := by
    unfold ESI.getCharacterNames
    by_cases hids : characterIds = []
    · simp only [hids, if_pos]
      have : ESI.uncachedIdsOf memoryCache fileCache [] = [] := rfl
      rw [this, ESI.chunk1000]
      simp
    · simp [hids]
  refine ⟨hreq, ?_, ?_, ?_⟩
  · intro b hb
    rw [hreq] at hb
    exact chunk1000_le _ b hb
  · rw [hreq]
    exact chunk1000_flatten _
  · intro h2500
    rw [hreq]
    exact chunk1000_map_length_2500 _ h2500

/-- C8 witness: 2500 fully-uncached IDs are resolved through exactly the
batches 1000, 1000, 500. -/
theorem getCharacterNames_batching_witness :
    (ESI.getCharacterNames [] [] (List.range 2500) (fun _ => [])).batchRequests.map
        List.length = [1000, 1000, 500] := by
  have huncached : ESI.uncachedIdsOf [] [] (List.range 2500) = List.range 2500 := by
    simp [ESI.uncachedIdsOf, alLookup, truthyStr]
  exact (getCharacterNames_batching [] [] (List.range 2500) (fun _ => [])).2.2.2
    (by rw [huncached]; simp)

/-! ## Claim C2 -/

/-- C2: a record whose victim ship-type ID is the escape-pod type (670)
leaves both the kill-aggregation state and the loss-aggregation state
entirely unchanged, whatever its other fields. -/
theorem capsuleVictim_excluded_bothAggregations (corpKill corpLoss : Nat)
    (namesK namesL : List (Nat × String)) (s : CorporationStats)
    (t : LossStatisticsData) (km : Killmail)
    (h : km.victim.bind Victim.shipTypeID = some CAPSULE_SHIP_ID) :
    KillmailStats.processKillmail corpKill namesK s km = s ∧
    LossStatistics.processKillmail corpLoss namesL t km = t := by
  constructor
  · unfold KillmailStats.processKillmail
    simp [h]
  · match hv : km.victim with
    | none => rw [hv] at h; simp at h
    | some v =>
      have hsv : v.shipTypeID = some CAPSULE_SHIP_ID := by
        rw [hv] at h
        simpa using h
      unfold LossStatistics.processKillmail
      rw [hv]
      simp only
      split_ifs with h1 h2 <;> try rfl

/-- C2 witness: the concrete escape-pod-victim record changes nothing in
either freshly initialised aggregator. -/
theorem capsuleVictim_excluded_bothAggregations_witness :
    KillmailStats.processKillmail 100 [] (KillmailStats.init 100 none) kmPodVictim
        = KillmailStats.init 100 none ∧
    LossStatistics.processKillmail 100 [] (LossStatistics.init 100 none) kmPodVictim
        = LossStatistics.init 100 none :=
  capsuleVictim_excluded_bothAggregations 100 100 [] [] _ _ kmPodVictim rfl

/-! ## Claim C10 -/

/-- C10: in loss aggregation a victim of the tracked corporation without
a character ID contributes nothing: the state is returned unchanged
before any counter is touched. -/
theorem lossVictim_noCharacterID_ignored (corpID : Nat) (names : List (Nat × String))
    (t : LossStatisticsData) (km : Killmail) (v : Victim)
    (hv : km.victim = some v) (hcorp : v.corporationID = some corpID)
    (hcid : v.characterID = none) :
    LossStatistics.processKillmail corpID names t km = t := by
  unfold LossStatistics.processKillmail
  rw [hv]
  simp [hcorp, hcid, truthyNat]

/-- C10 witness: the concrete corporation-100 victim without character ID
leaves the fresh loss aggregator unchanged. -/
theorem lossVictim_noCharacterID_ignored_witness :
    LossStatistics.processKillmail 100 [] (LossStatistics.init 100 none) kmNoCharVictim
        = LossStatistics.init 100 none :=
  lossVictim_noCharacterID_ignored 100 [] _ kmNoCharVictim _ rfl rfl rfl

/-! ## Claim C7 -/

/-- C7 counterexample: the pre-loaded name map has an entry for
character 5, namely the empty string, yet the aggregator does not use
it — the raw embedded name fallback `"Bob (5)"` is stored instead,
because an empty map entry is falsy in the source. -/
theorem nameResolution_emptyEntry_cex :
    alLookup [(5, "")] 5 = some "" ∧
    (alLookup (KillmailStats.processKillmail 100 [(5, "")]
        (KillmailStats.init 100 none) kmRifter).participants 5).map
      ParticipantStats.characterName = some "Bob (5)" := by
  constructor
  · rfl
  · rfl

/-- C7 (amended): the display name stored for a counted character is
`resolveDisplayName`: a truthy (non-empty) entry of the pre-loaded map
wins; otherwise a truthy raw embedded name yields `"<raw> (<id>)"`;
otherwise `"Character_<id>"`.  The last conjunct ties this to the
aggregator: a first-seen attacker is stored under exactly this name. -/
theorem nameResolution_fallback (names : List (Nat × String)) (cid : Nat)
    (raw : Option String) :
    (∀ n, alLookup names cid = some n → n ≠ "" →
      resolveDisplayName names cid raw = n) ∧
    (¬ truthyStr (alLookup names cid) = true → ∀ r, raw = some r → r ≠ "" →
      resolveDisplayName names cid raw = r ++ " (" ++ toString cid ++ ")") ∧
    (¬ truthyStr (alLookup names cid) = true → ¬ truthyStr raw = true →
      resolveDisplayName names cid raw = "Character_" ++ toString cid) ∧
    (∀ corpID (s : CorporationStats) (a : Attacker),
      a.corporationID = some corpID → a.characterID = some cid → cid ≠ 0 →
      a.characterName = raw → alLookup s.participants cid = none →
      (alLookup (KillmailStats.processAttacker corpID names s a).participants cid).map
          ParticipantStats.characterName = some (resolveDisplayName names cid raw)) := by
  refine ⟨?_, ?_, ?_, ?_⟩
  · intro n hn hne
    simp [resolveDisplayName, hn, truthyStr, hne]
  · intro hmap r hr hrne
    rw [Bool.not_eq_true] at hmap
    subst hr
    simp only [resolveDisplayName, hmap, Bool.false_eq_true, if_false]
    simp [truthyStr, hrne]
  · intro hmap hraw
    rw [Bool.not_eq_true] at hmap hraw
    simp only [resolveDisplayName, hmap, hraw, Bool.false_eq_true, if_false]
  · intro corpID s a hc hid hne hraw hfresh
    obtain ⟨acid, acname, acorp, acorpn, aaid, aan, asid, asn, awid, add, afb, ass⟩ := a
    simp only at hc hid hraw
    subst hc hid hraw
    simp only [KillmailStats.processAttacker, truthyNat, Option.getD_some]
    have hb : (cid != 0) = true := by simp [hne]
    simp only [hb, hfresh]
    simp only [ne_eq, not_true_eq_false, Bool.not_true, if_false]
    split_ifs <;> simp [alLookup_alInsert_self]

/-- C7 witness: the three display-name cases at concrete inputs, via the
amended theorem. -/
theorem nameResolution_fallback_witness :
    resolveDisplayName [(5, "Alice")] 5 (some "Bob") = "Alice" ∧
    resolveDisplayName [] 5 (some "Bob") = "Bob (5)" ∧
    resolveDisplayName [] 5 none = "Character_5" ∧
    (alLookup (KillmailStats.processAttacker 100 [] (KillmailStats.init 100 none)
        rifterAttacker).participants 5).map ParticipantStats.characterName
      = some (resolveDisplayName [] 5 (some "Bob")) := by
  refine ⟨?_, ?_, ?_, ?_⟩
  · exact (nameResolution_fallback [(5, "Alice")] 5 (some "Bob")).1 "Alice" rfl (by decide)
  · exact (nameResolution_fallback [] 5 (some "Bob")).2.1 (by decide) "Bob" rfl (by decide)
  · exact (nameResolution_fallback [] 5 none).2.2.1 (by decide) (by decide)
  · exact (nameResolution_fallback [] 5 (some "Bob")).2.2.2 100 (KillmailStats.init 100 none)
      rifterAttacker rfl rfl (by decide) rfl rfl

/-! ## Claim C1 -/

/-- C1 counterexample: a corporation-100 attacker flying the escape pod
(ship-type ID 670, pod ship name) lands the finishing blow on a
non-pod victim, yet after processing the record the attacker's
finishing-blow count is 0, not 1: the `continue` in the attacker loop
skips the finishing-blow update along with the kill counters. -/
theorem capsulePilotFinalBlow_notCounted_cex :
    podAttacker.finalBlow = true ∧
    podAttacker.shipTypeName = some CAPSULE_SHIP_NAME ∧
    kmPodAttacker.victim.bind Victim.shipTypeID ≠ some CAPSULE_SHIP_ID ∧
    (alLookup (KillmailStats.processKillmail 100 [] (KillmailStats.init 100 none)
        kmPodAttacker).participants 1).map ParticipantStats.finalBlows = some 0 := by
  refine ⟨rfl, rfl, by decide, ?_⟩
  rfl

/-- C1 (amended): for a record with a non-pod victim, a tracked-corp
attacker with a character ID whose (truthy) ship-type ID carries the
escape-pod ship name is skipped entirely: kill count, per-ship counts,
signature AND finishing-blow count are all left unchanged (a fresh
participant entry is still created with all counters zero); only the
record total is incremented. -/
theorem capsulePilotAttacker_skipped (corpID : Nat) (names : List (Nat × String))
    (s : CorporationStats) (km : Killmail) (a : Attacker)
    (hvic : km.victim.bind Victim.shipTypeID ≠ some CAPSULE_SHIP_ID)
    (hatt : km.attackers = some [a])
    (hcorp : a.corporationID = some corpID)
    (hcid : truthyNat a.characterID = true)
    (hship : truthyNat a.shipTypeID = true)
    (hname : a.shipTypeName = some CAPSULE_SHIP_NAME) :
    (KillmailStats.processKillmail corpID names s km).totalKills = s.totalKills + 1 ∧
    (KillmailStats.processKillmail corpID names s km).shipTypes = s.shipTypes ∧
    (∀ p, alLookup s.participants (a.characterID.getD 0) = some p →
      ∃ q, alLookup (KillmailStats.processKillmail corpID names s km).participants
            (a.characterID.getD 0) = some q ∧
        q.totalKills = p.totalKills ∧ q.shipTypes = p.shipTypes ∧
        q.shipSignature = p.shipSignature ∧ q.finalBlows = p.finalBlows) ∧
    (alLookup s.participants (a.characterID.getD 0) = none →
      ∃ q, alLookup (KillmailStats.processKillmail corpID names s km).participants
            (a.characterID.getD 0) = some q ∧
        q.totalKills = 0 ∧ q.shipTypes = [] ∧ q.shipSignature = 0 ∧ q.finalBlows = 0) := by
  have hsn : KillmailStats.attackerShipName a = CAPSULE_SHIP_NAME := by
    unfold KillmailStats.attackerShipName
    rw [hname]
    simp [truthyStr, CAPSULE_SHIP_NAME]
  have hkm : KillmailStats.processKillmail corpID names s km
      = KillmailStats.processAttacker corpID names
          { s with totalKills := s.totalKills + 1 } a := by
    unfold KillmailStats.processKillmail
    rw [if_neg hvic, hatt]
    rfl
  rw [hkm]
  simp only [KillmailStats.processAttacker, hcorp, hcid, hsn, hship]
  simp only [ne_eq, not_true_eq_false, Bool.not_true, Bool.false_eq_true, if_false, if_true]
  refine ⟨by trivial, by trivial, ?_, ?_⟩
  · intro p hp
    simp only [hp]
    split_ifs <;> exact ⟨_, alLookup_alInsert_self _ _ _, by simp⟩
  · intro hp
    simp only [hp]
    split_ifs <;> exact ⟨_, alLookup_alInsert_self _ _ _, by simp⟩

/-- C1 witness: the amended theorem applied to the concrete pod-flying
finishing-blow attacker. -/
theorem capsulePilotAttacker_skipped_witness :
    (KillmailStats.processKillmail 100 [] (KillmailStats.init 100 none)
        kmPodAttacker).totalKills = 1 ∧
    (KillmailStats.processKillmail 100 [] (KillmailStats.init 100 none)
        kmPodAttacker).shipTypes = [] ∧
    ∃ q, alLookup (KillmailStats.processKillmail 100 [] (KillmailStats.init 100 none)
          kmPodAttacker).participants 1 = some q ∧
      q.totalKills = 0 ∧ q.shipTypes = [] ∧ q.shipSignature = 0 ∧ q.finalBlows = 0 := by
  have h := capsulePilotAttacker_skipped 100 [] (KillmailStats.init 100 none)
    kmPodAttacker podAttacker (by decide) rfl rfl rfl rfl rfl
  exact ⟨h.1, h.2.1, h.2.2.2 rfl⟩

/-! ## Monotonicity machinery for claim C5 -/

theorem statsLE_refl (s : CorporationStats) : StatsLE s s :=
  ⟨le_refl _, fun _ p hp => ⟨p, hp, le_refl _, le_refl _, le_refl _⟩,
    fun _ st hst => ⟨st, hst, le_refl _⟩⟩

theorem statsLE_trans {s t u : CorporationStats} (h1 : StatsLE s t) (h2 : StatsLE t u) :
    StatsLE s u := by
  obtain ⟨ha1, hb1, hc1⟩ := h1
  obtain ⟨ha2, hb2, hc2⟩ := h2
  refine ⟨le_trans ha1 ha2, ?_, ?_⟩
  · intro cid p hp
    obtain ⟨q, hq, hq1, hq2, hq3⟩ := hb1 cid p hp
    obtain ⟨r, hr, hr1, hr2, hr3⟩ := hb2 cid q hq
    exact ⟨r, hr, le_trans hq1 hr1, le_trans hq2 hr2, le_trans hq3 hr3⟩
  · intro tid st hst
    obtain ⟨su, hsu, h1⟩ := hc1 tid st hst
    obtain ⟨sv, hsv, h2⟩ := hc2 tid su hsu
    exact ⟨sv, hsv, le_trans h1 h2⟩

theorem statsLE_insert_participant (s : CorporationStats) (cid : Nat)
    (p1 : ParticipantStats)
    (hflds : ∀ p, alLookup s.participants cid = some p →
      p.totalKills ≤ p1.totalKills ∧ p.shipSignature ≤ p1.shipSignature ∧
      p.finalBlows ≤ p1.finalBlows) :
    StatsLE s { s with participants := alInsert s.participants cid p1 } := by
  refine ⟨le_refl _, ?_, ?_⟩
  · intro cid2 p hp
    by_cases hc : cid = cid2
    · subst hc
      exact ⟨p1, alLookup_alInsert_self _ _ _,
        (hflds p hp).1, (hflds p hp).2.1, (hflds p hp).2.2⟩
    · refine ⟨p, ?_, le_refl _, le_refl _, le_refl _⟩
      show alLookup (alInsert s.participants cid p1) cid2 = some p
      rw [alLookup_alInsert_ne _ _ _ _ hc]
      exact hp
  · intro tid st hst
    exact ⟨st, hst, le_refl _⟩

theorem statsLE_insert_both (s : CorporationStats) (cid : Nat) (p1 : ParticipantStats)
    (tid : Nat) (st1 : ShipTypeStats)
    (hflds : ∀ p, alLookup s.participants cid = some p →
      p.totalKills ≤ p1.totalKills ∧ p.shipSignature ≤ p1.shipSignature ∧
      p.finalBlows ≤ p1.finalBlows)
    (hst : ∀ st, alLookup s.shipTypes tid = some st → st.totalKills ≤ st1.totalKills) :
    StatsLE s { s with participants := alInsert s.participants cid p1,
                       shipTypes := alInsert s.shipTypes tid st1 } := by
  refine ⟨le_refl _, ?_, ?_⟩
  · intro cid2 p hp
    by_cases hc : cid = cid2
    · subst hc
      exact ⟨p1, alLookup_alInsert_self _ _ _,
        (hflds p hp).1, (hflds p hp).2.1, (hflds p hp).2.2⟩
    · refine ⟨p, ?_, le_refl _, le_refl _, le_refl _⟩
      show alLookup (alInsert s.participants cid p1) cid2 = some p
      rw [alLookup_alInsert_ne _ _ _ _ hc]
      exact hp
  · intro tid2 st hst2
    by_cases ht : tid = tid2
    · subst ht
      exact ⟨st1, alLookup_alInsert_self _ _ _, hst st hst2⟩
    · refine ⟨st, ?_, le_refl _⟩
      show alLookup (alInsert s.shipTypes tid st1) tid2 = some st
      rw [alLookup_alInsert_ne _ _ _ _ ht]
      exact hst2

theorem processAttacker_statsLE (corpID : Nat) (names : List (Nat × String))
    (s : CorporationStats) (a : Attacker) :
    StatsLE s (KillmailStats.processAttacker corpID names s a) := by
  unfold KillmailStats.processAttacker
  by_cases h1 : a.corporationID ≠ some corpID
  · rw [if_pos h1]
    exact statsLE_refl s
  rw [if_neg h1]
  by_cases h2 : ¬ truthyNat a.characterID = true
  · rw [if_pos h2]
    exact statsLE_refl s
  rw [if_neg h2]
  simp only
  by_cases h3 : truthyNat a.shipTypeID = true
  · rw [if_pos h3]
    by_cases h4 : KillmailStats.attackerShipName a = CAPSULE_SHIP_NAME
    · rw [if_pos h4]
      apply statsLE_insert_participant
      intro p hp
      simp only [hp]
      split_ifs <;> simp
    · rw [if_neg h4]
      apply statsLE_insert_both
      · intro p hp
        simp only [hp]
        split_ifs <;> refine ⟨?_, ?_, ?_⟩ <;> simp
      · intro st hst
        simp only [hst]
        simp
  · rw [if_neg h3]
    apply statsLE_insert_participant
    intro p hp
    simp only [hp]
    split_ifs <;> refine ⟨?_, ?_, ?_⟩ <;> simp

theorem processAttacker_totalKills (corpID : Nat) (names : List (Nat × String))
    (s : CorporationStats) (a : Attacker) :
    (KillmailStats.processAttacker corpID names s a).totalKills = s.totalKills := by
  unfold KillmailStats.processAttacker
  split_ifs <;> simp [apply_ite CorporationStats.totalKills]

theorem foldl_processAttacker_statsLE (corpID : Nat) (names : List (Nat × String))
    (as : List Attacker) (s : CorporationStats) :
    StatsLE s (as.foldl (KillmailStats.processAttacker corpID names) s) := by
  induction as generalizing s with
  | nil => exact statsLE_refl s
  | cons a as ih =>
    exact statsLE_trans (processAttacker_statsLE corpID names s a) (ih _)

theorem foldl_processAttacker_totalKills (corpID : Nat) (names : List (Nat × String))
    (as : List Attacker) (s : CorporationStats) :
    (as.foldl (KillmailStats.processAttacker corpID names) s).totalKills = s.totalKills := by
  induction as generalizing s with
  | nil => rfl
  | cons a as ih =>
    rw [List.foldl_cons, ih, processAttacker_totalKills]

theorem statsLE_bump (s : CorporationStats) :
    StatsLE s { s with totalKills := s.totalKills + 1 } :=
  ⟨Nat.le_succ _, fun _ p hp => ⟨p, hp, le_refl _, le_refl _, le_refl _⟩,
    fun _ st hst => ⟨st, hst, le_refl _⟩⟩

theorem processKillmail_statsLE (corpID : Nat) (names : List (Nat × String))
    (s : CorporationStats) (km : Killmail) :
    StatsLE s (KillmailStats.processKillmail corpID names s km) := by
  unfold KillmailStats.processKillmail
  split_ifs with h
  · exact statsLE_refl s
  · cases hatt : km.attackers with
    | none =>
      simp only [hatt]
      exact statsLE_bump s
    | some as =>
      simp only [hatt]
      exact statsLE_trans (statsLE_bump s)
        (foldl_processAttacker_statsLE corpID names as _)

theorem processKillmail_totalKills (corpID : Nat) (names : List (Nat × String))
    (s : CorporationStats) (km : Killmail) :
    (KillmailStats.processKillmail corpID names s km).totalKills
      = if excludedKill km then s.totalKills else s.totalKills + 1 := by
  by_cases h : km.victim.bind Victim.shipTypeID = some CAPSULE_SHIP_ID
  · simp [KillmailStats.processKillmail, excludedKill, h]
  · have hb : excludedKill km = false := by simp [excludedKill, h]
    rw [hb]
    simp only [Bool.false_eq_true, if_false]
    unfold KillmailStats.processKillmail
    rw [if_neg h]
    cases hatt : km.attackers with
    | none => simp only [hatt]
    | some as =>
      simp only [hatt]
      rw [foldl_processAttacker_totalKills]

theorem processKillmails_totalKills (corpID : Nat) (names : List (Nat × String))
    (s : CorporationStats) (l : List Killmail) :
    (KillmailStats.processKillmails corpID names s l).totalKills
      = s.totalKills + l.countP (fun km => ! excludedKill km) := by
  induction l generalizing s with
  | nil => simp [KillmailStats.processKillmails]
  | cons km l ih =>
    simp only [KillmailStats.processKillmails, List.foldl_cons] at *
    rw [ih, processKillmail_totalKills, List.countP_cons]
    by_cases h : excludedKill km = true
    · simp [h]
    · simp [h]
      omega

theorem processKillmails_statsLE (corpID : Nat) (names : List (Nat × String))
    (s : CorporationStats) (l : List Killmail) :
    StatsLE s (KillmailStats.processKillmails corpID names s l) := by
  induction l generalizing s with
  | nil => exact statsLE_refl s
  | cons km l ih =>
    exact statsLE_trans (processKillmail_statsLE corpID names s km) (ih _)

/-! ## Claim C5 -/

/-- C5: after folding any record list (so in particular after any prefix
of the stream), `totalKills` has grown by exactly the number of records
processed minus the number of escape-pod-victim records, and no counter
(total, participant kill/signature/finishing-blow, ship-type kill)
ever decreases. -/
theorem killStats_prefixCount_monotone (corpID : Nat) (names : List (Nat × String))
    (s : CorporationStats) (l : List Killmail) :
    (KillmailStats.processKillmails corpID names s l).totalKills
        = s.totalKills + (l.length - l.countP excludedKill) ∧
    StatsLE s (KillmailStats.processKillmails corpID names s l) := by
  constructor
  · rw [processKillmails_totalKills]
    have h1 := countP_not_eq excludedKill l
    have h2 := List.countP_le_length (p := excludedKill) (l := l)
    omega
  · exact processKillmails_statsLE corpID names s l

/-- C5 witness: the theorem at a concrete two-record stream (one counted
record, one escape-pod-victim record). -/
theorem killStats_prefixCount_monotone_witness :
    (KillmailStats.processKillmails 100 [] (KillmailStats.init 100 none)
        [kmRifter, kmPodVictim]).totalKills
      = (KillmailStats.init 100 none).totalKills
          + ([kmRifter, kmPodVictim].length - [kmRifter, kmPodVictim].countP excludedKill) ∧
    StatsLE (KillmailStats.init 100 none)
      (KillmailStats.processKillmails 100 [] (KillmailStats.init 100 none)
        [kmRifter, kmPodVictim]) :=
  killStats_prefixCount_monotone 100 [] (KillmailStats.init 100 none) [kmRifter, kmPodVictim]

/-! ## Balance machinery for claim C9 -/

theorem truthyNat_false_getD (o : Option Nat) (h : truthyNat o = false) : o.getD 0 = 0 := by
  cases o with
  | none => rfl
  | some n =>
    simp [truthyNat] at h
    simp [h]

theorem balancedLoss_of_insert (t u : LossStatisticsData) (cid : Nat)
    (p : LossParticipantStats)
    (hu : u.participants = alInsert t.participants cid p)
    (hb : BalancedLoss t) (hp : p.totalValue = p.damageTaken) :
    BalancedLoss u := by
  intro cid2 q hq
  rw [hu, alLookup_alInsert] at hq
  split_ifs at hq with hc
  · cases hq
    exact hp
  · exact hb cid2 q hq

theorem lossBalance_step_general (corpID : Nat) (names : List (Nat × String))
    (t : LossStatisticsData) (km : Killmail) (v : Victim)
    (hv : km.victim = some v)
    (hz : (km.zkb.bind ZkbInfo.totalValue).getD 0 = v.damageTaken.getD 0)
    (hsn : truthyNat v.shipTypeID = true)
    (hb : BalancedLoss t) :
    BalancedLoss (LossStatistics.processKillmail corpID names t km) := by
  unfold LossStatistics.processKillmail
  rw [hv]
  simp only
  by_cases h1 : v.corporationID ≠ some corpID
  · rw [if_pos h1]
    exact hb
  rw [if_neg h1]
  by_cases h2 : ¬ truthyNat v.characterID = true
  · rw [if_pos h2]
    exact hb
  rw [if_neg h2]
  by_cases h3 : v.shipTypeID = some CAPSULE_SHIP_ID
  · rw [if_pos h3]
    exact hb
  rw [if_neg h3]
  rw [if_pos hsn]
  by_cases h4 : LossStatistics.victimShipName v = CAPSULE_SHIP_NAME
  · rw [if_pos h4]
    refine balancedLoss_of_insert t _ (v.characterID.getD 0) _ rfl hb ?_
    cases hp : alLookup t.participants (v.characterID.getD 0) with
    | some p =>
      simp only [hp]
      split_ifs <;> simp [hb _ _ hp]
    | none =>
      simp only [hp]
      split_ifs <;> simp
  · rw [if_neg h4]
    refine balancedLoss_of_insert t _ (v.characterID.getD 0) _ rfl hb ?_
    rw [hz]
    by_cases hdmg : truthyNat v.damageTaken = true
    · cases hp : alLookup t.participants (v.characterID.getD 0) with
      | some p =>
        have hbal := hb _ _ hp
        simp only [hp, hdmg]
        split_ifs <;> simp <;> omega
      | none =>
        simp only [hp, hdmg]
        split_ifs <;> simp
    · have hd0 : v.damageTaken.getD 0 = 0 := truthyNat_false_getD _ (by simpa using hdmg)
      cases hp : alLookup t.participants (v.characterID.getD 0) with
      | some p =>
        have hbal := hb _ _ hp
        simp only [hp, hd0]
        split_ifs <;> simp_all
      | none =>
        simp only [hp, hd0]
        split_ifs <;> simp_all

theorem lossBalance_step (shipNames : Nat → Option String) (corpID : Nat)
    (names : List (Nat × String)) (t : LossStatisticsData) (km : Killmail)
    (hb : BalancedLoss t) (ht : TransformedWithShip shipNames km) :
    BalancedLoss (LossStatistics.processKillmail corpID names t km) := by
  obtain ⟨id, hash, esi, rfl, hship⟩ := ht
  exact lossBalance_step_general corpID names t _ _ rfl rfl hship hb

theorem lossBalance_fold (shipNames : Nat → Option String) (corpID : Nat)
    (names : List (Nat × String)) (l : List Killmail) (t : LossStatisticsData)
    (hb : BalancedLoss t) (hl : ∀ km ∈ l, TransformedWithShip shipNames km) :
    BalancedLoss (LossStatistics.processKillmails corpID names t l) := by
  induction l generalizing t with
  | nil => exact hb
  | cons km l ih =>
    simp only [LossStatistics.processKillmails, List.foldl_cons] at *
    exact ih _ (lossBalance_step shipNames corpID names t km hb (hl km (by simp)))
      (fun km2 h2 => hl km2 (by simp [h2]))

/-! ## Claim C9 -/

/-- C9 counterexample: a record produced by the detail transform whose
ESI victim has damage taken 100 but no ship-type ID.  The transform sets
`zkb.totalValue` to 100, yet loss aggregation leaves the participant's
accumulated destroyed value at 0 while accumulating damage taken 100:
value accumulation only happens under the ship-type branch, damage
accumulation does not. -/
theorem transformValue_notBalanced_cex :
    (ZKillboardAPI.transformESIResponse noShipNames 11 "h" esiNoShip).zkb.bind
        ZkbInfo.totalValue = some 100 ∧
    (alLookup (LossStatistics.processKillmail 100 [] (LossStatistics.init 100 none)
        (ZKillboardAPI.transformESIResponse noShipNames 11 "h" esiNoShip)).participants 7).map
      (fun p => (p.totalValue, p.damageTaken)) = some (0, 100) := by
  constructor
  · rfl
  · rfl

/-- C9 (amended): the detail transform sets both `zkb.totalValue` and
`zkb.destroyedValue` to the ESI victim's damage taken (0 when absent);
and for streams of transformed records whose victims carry a ship-type
ID, loss aggregation keeps every participant's accumulated destroyed
value equal to their accumulated damage taken. -/
theorem transformEconomicFields_balance (shipNames : Nat → Option String) :
    (∀ (id : Nat) (hash : String) (esi : ESIKillmailResponse),
      (ZKillboardAPI.transformESIResponse shipNames id hash esi).zkb.bind ZkbInfo.totalValue
          = some ((esi.victim.bind ESIVictim.damage_taken).getD 0) ∧
      (ZKillboardAPI.transformESIResponse shipNames id hash esi).zkb.bind ZkbInfo.destroyedValue
          = some ((esi.victim.bind ESIVictim.damage_taken).getD 0)) ∧
    (∀ (corpID : Nat) (names : List (Nat × String)) (cname : Option String)
        (l : List Killmail),
      (∀ km ∈ l, TransformedWithShip shipNames km) →
      BalancedLoss (LossStatistics.processKillmails corpID names
        (LossStatistics.init corpID cname) l)) := by
  constructor
  · intro id hash esi
    exact ⟨rfl, rfl⟩
  · intro corpID names cname l hl
    have hinit : BalancedLoss (LossStatistics.init corpID cname) := by
      intro cid p hp
      simp [LossStatistics.init, alLookup] at hp
    exact lossBalance_fold shipNames corpID names l _ hinit hl

/-- C9 witness: the amended theorem at a one-record stream built from a
concrete ESI response with both ship-type ID and damage taken. -/
theorem transformEconomicFields_balance_witness :
    BalancedLoss (LossStatistics.processKillmails 100 [] (LossStatistics.init 100 none)
      [ZKillboardAPI.transformESIResponse noShipNames 12 "h2" esiWithShip]) := by
  refine (transformEconomicFields_balance noShipNames).2 100 [] none _ ?_
  intro km hkm
  rw [List.mem_singleton] at hkm
  exact ⟨12, "h2", esiWithShip, hkm, rfl⟩

/-! ## Fetch client lemmas (claims C3, C4, C6) -/

theorem getESIKillmailDetail_isSome_eq (shipNames : Nat → Option String) (id : Nat)
    (hash : String) (r : Except String ESIKillmailResponse) :
    (ZKillboardAPI.getESIKillmailDetail shipNames id hash r).isSome = isOkE r := by
  cases r <;> rfl

theorem fetchMissing_isSome (shipNames : Nat → Option String)
    (esiResp : Nat → String → Except String ESIKillmailResponse)
    (pairs : List (Nat × String)) (cache : List (Nat × Killmail)) (k : Nat)
    (h : (alLookup cache k).isSome = true) :
    (alLookup (ZKillboardAPI.fetchMissing shipNames esiResp pairs cache) k).isSome = true := by
  induction pairs generalizing cache with
  | nil => exact h
  | cons pr rest ih =>
    obtain ⟨id, hash⟩ := pr
    simp only [ZKillboardAPI.fetchMissing]
    cases hd : ZKillboardAPI.getESIKillmailDetail shipNames id hash (esiResp id hash) with
    | none =>
      simp only [hd]
      exact ih _ h
    | some killmail =>
      simp only [hd]
      apply ih
      rw [alLookup_alInsert]
      split_ifs with he
      · rfl
      · exact h

theorem fetchMissing_mem_ok (shipNames : Nat → Option String)
    (esiResp : Nat → String → Except String ESIKillmailResponse)
    (pairs : List (Nat × String)) (cache : List (Nat × Killmail)) (k : Nat) (hsh : String)
    (hmem : (k, hsh) ∈ pairs) (hok : isOkE (esiResp k hsh) = true) :
    (alLookup (ZKillboardAPI.fetchMissing shipNames esiResp pairs cache) k).isSome = true := by
  induction pairs generalizing cache with
  | nil => simp at hmem
  | cons pr rest ih =>
    obtain ⟨id, hash⟩ := pr
    rcases List.mem_cons.mp hmem with he | he
    · rw [← he]
      simp only [ZKillboardAPI.fetchMissing]
      have hds : (ZKillboardAPI.getESIKillmailDetail shipNames k hsh (esiResp k hsh)).isSome
          = true := by
        rw [getESIKillmailDetail_isSome_eq]
        exact hok
      cases hd : ZKillboardAPI.getESIKillmailDetail shipNames k hsh (esiResp k hsh) with
      | none =>
        rw [hd] at hds
        simp at hds
      | some killmail =>
        simp only [hd]
        exact fetchMissing_isSome shipNames esiResp rest _ k
          (by rw [alLookup_alInsert_self]; rfl)
    · simp only [ZKillboardAPI.fetchMissing]
      cases hd : ZKillboardAPI.getESIKillmailDetail shipNames id hash (esiResp id hash) with
      | none =>
        simp only [hd]
        exact ih _ he
      | some killmail =>
        simp only [hd]
        exact ih _ he

theorem fetchMissing_none (shipNames : Nat → Option String)
    (esiResp : Nat → String → Except String ESIKillmailResponse)
    (pairs : List (Nat × String)) (cache : List (Nat × Killmail)) (k : Nat)
    (hnone : alLookup cache k = none)
    (hfail : ∀ p ∈ pairs, p.1 = k → isOkE (esiResp p.1 p.2) = false) :
    alLookup (ZKillboardAPI.fetchMissing shipNames esiResp pairs cache) k = none := by
  induction pairs generalizing cache with
  | nil => exact hnone
  | cons pr rest ih =>
    obtain ⟨id, hash⟩ := pr
    simp only [ZKillboardAPI.fetchMissing]
    cases hd : ZKillboardAPI.getESIKillmailDetail shipNames id hash (esiResp id hash) with
    | none =>
      simp only [hd]
      exact ih _ hnone (fun p hp hpk => hfail p (List.mem_cons_of_mem _ hp) hpk)
    | some killmail =>
      have hne : id ≠ k := by
        intro he
        have hf : isOkE (esiResp id hash) = false :=
          hfail (id, hash) (List.mem_cons_self _ _) he
        have := getESIKillmailDetail_isSome_eq shipNames id hash (esiResp id hash)
        rw [hd, hf] at this
        simp at this
      simp only [hd]
      apply ih
      · rw [alLookup_alInsert_ne _ _ _ _ hne]
        exact hnone
      · exact fun p hp hpk => hfail p (List.mem_cons_of_mem _ hp) hpk

theorem getKills_allCached (shipNames : Nat → Option String)
    (esiResp : Nat → String → Except String ESIKillmailResponse)
    (data : List ZKillboardListItem) (cache : List (Nat × Killmail))
    (h : ∀ item ∈ data, (alLookup cache item.killmail_id).isSome = true) :
    ZKillboardAPI.getKills shipNames esiResp data cache
      = { kills := data.filterMap (fun item => alLookup cache item.killmail_id)
          rawCount := data.length
          cache := cache
          detailRequests := [] } := by
  have hfilter : (data.filter fun item => (alLookup cache item.killmail_id).isNone) = [] := by
    rw [List.filter_eq_nil_iff]
    intro item hitem
    have hs := h item hitem
    cases halk : alLookup cache item.killmail_id with
    | none => rw [halk] at hs; simp at hs
    | some km => simp [halk]
  simp only [ZKillboardAPI.getKills, hfilter, List.map_nil]
  rfl

/-! ## Claim C3 -/

/-- C3: fetching the same cache partition twice in sequence, with the
list endpoint returning the same summaries and every detail fetch of
the first run succeeding, issues zero detail requests on the second run
and returns the identical record sequence. -/
theorem getKills_secondRun_cached (shipNames : Nat → Option String)
    (esiResp : Nat → String → Except String ESIKillmailResponse)
    (data : List ZKillboardListItem) (cache0 : List (Nat × Killmail))
    (hsucc : ∀ item ∈ data, alLookup cache0 item.killmail_id = none →
      isOkE (esiResp item.killmail_id item.hash) = true) :
    (ZKillboardAPI.getKills shipNames esiResp data
        (ZKillboardAPI.getKills shipNames esiResp data cache0).cache).detailRequests = [] ∧
    (ZKillboardAPI.getKills shipNames esiResp data
        (ZKillboardAPI.getKills shipNames esiResp data cache0).cache).kills
      = (ZKillboardAPI.getKills shipNames esiResp data cache0).kills := by
  have hAll : ∀ item ∈ data,
      (alLookup (ZKillboardAPI.getKills shipNames esiResp data cache0).cache
        item.killmail_id).isSome = true := by
    intro item hitem
    show (alLookup (ZKillboardAPI.fetchMissing shipNames esiResp
      ((data.filter fun it => (alLookup cache0 it.killmail_id).isNone).map
        fun it => (it.killmail_id, it.hash)) cache0) item.killmail_id).isSome = true
    cases hc : alLookup cache0 item.killmail_id with
    | some killmail =>
      exact fetchMissing_isSome _ _ _ _ _ (by rw [hc]; rfl)
    | none =>
      refine fetchMissing_mem_ok _ _ _ _ _ item.hash ?_ (hsucc item hitem hc)
      exact List.mem_map_of_mem _ (List.mem_filter.mpr ⟨hitem, by simp [hc]⟩)
  have h2 := getKills_allCached shipNames esiResp data
    (ZKillboardAPI.getKills shipNames esiResp data cache0).cache hAll
  constructor
  · rw [h2]
  · rw [h2]
    rfl

/-- C3 witness: the theorem at a concrete one-item page with an empty
initial cache and an always-succeeding detail endpoint. -/
theorem getKills_secondRun_cached_witness :
    (ZKillboardAPI.getKills noShipNames esiOkResp [itemA]
        (ZKillboardAPI.getKills noShipNames esiOkResp [itemA] []).cache).detailRequests = [] ∧
    (ZKillboardAPI.getKills noShipNames esiOkResp [itemA]
        (ZKillboardAPI.getKills noShipNames esiOkResp [itemA] []).cache).kills
      = (ZKillboardAPI.getKills noShipNames esiOkResp [itemA] []).kills := by
  refine getKills_secondRun_cached noShipNames esiOkResp [itemA] [] ?_
  intro item hitem hnone
  rw [List.mem_singleton] at hitem
  subst hitem
  rfl

/-! ## Claim C6 -/

/-- C6: a detail-endpoint failure for one record is non-fatal: the
failure is absorbed into `none`, the record ends up neither in the
persisted cache partition nor in the returned sequence (which is the
reconciliation of the page against the final cache), every cache miss
of the page is still attempted, and every other record with a cache hit
or successful fetch ends up cached (hence returned). -/
theorem detailFetchFailure_nonFatal (shipNames : Nat → Option String)
    (esiResp : Nat → String → Except String ESIKillmailResponse)
    (data : List ZKillboardListItem) (cache0 : List (Nat × Killmail))
    (failItem : ZKillboardListItem)
    (hnodup : (data.map ZKillboardListItem.killmail_id).Nodup)
    (hmem : failItem ∈ data)
    (hmiss : alLookup cache0 failItem.killmail_id = none)
    (hfail : isOkE (esiResp failItem.killmail_id failItem.hash) = false) :
    (∀ (id : Nat) (hash msg : String),
      ZKillboardAPI.getESIKillmailDetail shipNames id hash (.error msg) = none) ∧
    alLookup (ZKillboardAPI.getKills shipNames esiResp data cache0).cache
        failItem.killmail_id = none ∧
    (ZKillboardAPI.getKills shipNames esiResp data cache0).kills
      = data.filterMap (fun item =>
          alLookup (ZKillboardAPI.getKills shipNames esiResp data cache0).cache
            item.killmail_id) ∧
    (∀ j ∈ data, alLookup cache0 j.killmail_id = none →
      (j.killmail_id, j.hash)
        ∈ (ZKillboardAPI.getKills shipNames esiResp data cache0).detailRequests) ∧
    (∀ j ∈ data, j.killmail_id ≠ failItem.killmail_id →
      ((alLookup cache0 j.killmail_id).isSome = true ∨
        isOkE (esiResp j.killmail_id j.hash) = true) →
      (alLookup (ZKillboardAPI.getKills shipNames esiResp data cache0).cache
        j.killmail_id).isSome = true) := by
  refine ⟨fun id hash msg => rfl, ?_, rfl, ?_, ?_⟩
  · show alLookup (ZKillboardAPI.fetchMissing shipNames esiResp
      ((data.filter fun it => (alLookup cache0 it.killmail_id).isNone).map
        fun it => (it.killmail_id, it.hash)) cache0) failItem.killmail_id = none
    refine fetchMissing_none _ _ _ _ _ hmiss ?_
    intro p hp hpk
    obtain ⟨item, hitem, rfl⟩ := List.mem_map.mp hp
    have hitem2 := (List.mem_filter.mp hitem).1
    have : item = failItem :=
      List.inj_on_of_nodup_map hnodup hitem2 hmem hpk
    rw [this]
    exact hfail
  · intro j hj hjnone
    exact List.mem_map_of_mem _ (List.mem_filter.mpr ⟨hj, by simp [hjnone]⟩)
  · intro j hj hjne hsrc
    show (alLookup (ZKillboardAPI.fetchMissing shipNames esiResp
      ((data.filter fun it => (alLookup cache0 it.killmail_id).isNone).map
        fun it => (it.killmail_id, it.hash)) cache0) j.killmail_id).isSome = true
    cases hc : alLookup cache0 j.killmail_id with
    | some killmail =>
      exact fetchMissing_isSome _ _ _ _ _ (by rw [hc]; rfl)
    | none =>
      rcases hsrc with hs | hs
      · rw [hc] at hs
        simp at hs
      · refine fetchMissing_mem_ok _ _ _ _ _ j.hash ?_ hs
        exact List.mem_map_of_mem _ (List.mem_filter.mpr ⟨hj, by simp [hc]⟩)

/-- C6 witness: page of two summaries where the detail fetch for record
22 fails: 22 is absent from the final cache while 21 is present. -/
theorem detailFetchFailure_nonFatal_witness :
    alLookup (ZKillboardAPI.getKills noShipNames esiFailB [itemA, itemB] []).cache 22 = none ∧
    (alLookup (ZKillboardAPI.getKills noShipNames esiFailB [itemA, itemB] []).cache 21).isSome
      = true := by
  have h := detailFetchFailure_nonFatal noShipNames esiFailB [itemA, itemB] [] itemB
    (by decide) (by simp) rfl rfl
  exact ⟨h.2.1, h.2.2.2.2 itemA (by simp) (by decide) (Or.inr rfl)⟩

/-! ## Claim C4 -/

/-- C4: pagination stops exactly on the first empty page: with page 1
non-empty (of any size N > 0, in particular shorter than the page size)
and page 2 empty, exactly the two list requests for pages 1 and 2 are
issued and no page-3 request is made. -/
theorem getAllKills_stopsOnEmptyPage (shipNames : Nat → Option String)
    (esiResp : Nat → String → Except String ESIKillmailResponse)
    (pageData : Nat → List ZKillboardListItem) (cache0 : List (Nat × Killmail))
    (fuel : Nat)
    (h1 : (pageData 1).length ≠ 0) (h2 : pageData 2 = []) (hfuel : 2 ≤ fuel) :
    (ZKillboardAPI.getAllKills shipNames esiResp pageData fuel cache0).listRequests
      = [1, 2] := by
  obtain ⟨f, rfl⟩ : ∃ f, fuel = f + 2 := ⟨fuel - 2, by omega⟩
  show (ZKillboardAPI.getAllKillsAux shipNames esiResp pageData (f + 2) 1 cache0).listRequests
      = [1, 2]
  rw [ZKillboardAPI.getAllKillsAux]
  rw [if_neg (by exact h1)]
  rw [ZKillboardAPI.getAllKillsAux]
  rw [if_pos (show (ZKillboardAPI.getKills shipNames esiResp (pageData (1 + 1))
    (ZKillboardAPI.getKills shipNames esiResp (pageData 1) cache0).cache).rawCount = 0 by
      have h2b : pageData (1 + 1) = [] := h2
      rw [h2b]
      rfl)]

/-- C4 witness: a concrete list endpoint with one item on page 1 and an
empty page 2 yields exactly the list requests [1, 2]. -/
theorem getAllKills_stopsOnEmptyPage_witness :
    (ZKillboardAPI.getAllKills noShipNames esiOkResp pagesOneThenEmpty 5 []).listRequests
      = [1, 2] :=
  getAllKills_stopsOnEmptyPage noShipNames esiOkResp pagesOneThenEmpty [] 5
    (by simp [pagesOneThenEmpty]) (by rfl) (by omega)
